import Mathlib

/-
  Verification of scripts/export_webpdf.py.

  The script converts Jupyter notebooks to WebPDF through a headless
  browser.  We embed its one nontrivial routine,
  SizedWebPDFExporter.run_playwright, as a function from an exporter
  configuration and an environment oracle (which browser operations
  succeed) to a result, a sequential trace of browser operations, and a
  list of filesystem operations on the scoped temporary file.  The
  browser automation engine is a black box: each awaited call is recorded
  as one trace event, in program order, which reflects that the coroutine
  suspends at every await and no two browser operations of one call are
  ever in flight at the same time.  The CLI driver (main) is embedded as
  a recursion over the notebook list.
-/

namespace ExportWebpdf

/-- Configuration state of a SizedWebPDFExporter instance: the page format
stored by the constructor plus the traitlets the script reads
(paginate, disable_sandbox, allow_chromium_download). -/
structure ExporterState where
  page_format : String
  paginate : Bool
  disable_sandbox : Bool
  allow_chromium_download : Bool
deriving DecidableEq

/-- Environment oracle for one run_playwright call: whether the playwright
module is installed, whether the chromium download subprocess succeeds,
whether a chromium binary is already present on the system, and whether
the launch, navigation, in-page evaluation and print steps succeed when
attempted. -/
structure Outcome where
  engineInstalled : Bool
  downloadOk : Bool
  binaryPresent : Bool
  launchOk : Bool
  gotoOk : Bool
  evalOk : Bool
  pdfOk : Bool
deriving DecidableEq

/-- The keyword arguments assembled into pdf_params and passed to
page.pdf: print_background, the named format, and the optional width and
height overrides. -/
structure PdfParams where
  print_background : Bool
  format : Option String
  width : Option Int
  height : Option Int
deriving DecidableEq

/-- One awaited browser-automation operation, recorded in program order. -/
inductive Event where
  | download
  | startEngine
  | launch (args : List String)
  | newPage
  | emulateMedia (media : String)
  | waitMs (ms : Nat)
  | goto (url : String) (waitUntil : String)
  | evaluateMeasure
  | printPdf (params : PdfParams)
  | closeBrowser
  | stopEngine
deriving DecidableEq

/-- Errors run_playwright can propagate.  engineMissing and launchFailed
carry the RuntimeError message text built by the script. -/
inductive RenderError where
  | engineMissing (msg : String)
  | downloadFailed
  | launchFailed (msg : String)
  | navigationTimeout
  | evalFailed
  | printFailed
deriving DecidableEq

/-- Filesystem operations on temporary files. -/
inductive FsOp where
  | createTemp (name : String)
  | unlink (name : String)
deriving DecidableEq

/-- Result of one run_playwright call: the returned pdf (abstracted as the
parameters it was printed with) or the propagated error, the sequential
trace of browser operations, and the filesystem operations performed. -/
structure RunResult where
  result : Except RenderError PdfParams
  trace : List Event
  fsOps : List FsOp

/-- RuntimeError message raised when the playwright module is missing
(quotation marks of the source string elided). -/
def engineMissingMsg : String :=
  "Playwright is not installed to support Web PDF conversion. " ++
  "Please install nbconvert[webpdf] to enable."

/-- RuntimeError message raised when chromium fails to launch; it carries
the remediation guidance (quotation marks of the source string elided). -/
def browserUnavailableMsg : String :=
  "No suitable chromium executable found on the system. " ++
  "Please use --allow-chromium-download to allow downloading one, " ++
  "or install it using playwright install chromium."

/-- Line 30: args is a singleton no-sandbox flag when disable_sandbox is
set, else empty. -/
def sandboxArgs (cfg : ExporterState) : List String :=
  if cfg.disable_sandbox then ["--no-sandbox"] else []

/-- Line 66: the local-file url for the temporary document. -/
def fileUrl (name : String) : String := "file://" ++ name

/-- Lines 72-78: the in-page measurement script returns
Math.ceil(rect.width) + 1 (resp. height) for the body bounding box. -/
def measureScript (x : ℚ) : Int := ⌈x⌉ + 1

/-- Line 69: the initial pdf_params dict: print_background true and the
named format, no width or height. -/
def basePdfParams (cfg : ExporterState) : PdfParams :=
  { print_background := true
    format := some cfg.page_format
    width := none
    height := none }

/-- Lines 80-85: in the non-paginate branch, width and height from the
measurement script, each clamped with min at 200 * 72, are added to
pdf_params (the format key is not removed). -/
def autoPdfParams (cfg : ExporterState) (rectW rectH : ℚ) : PdfParams :=
  { basePdfParams cfg with
    width := some (min (measureScript rectW) (200 * 72))
    height := some (min (measureScript rectH) (200 * 72)) }

/-- The parameters page.pdf is called with, by paginate flag. -/
def pdfParamsFor (cfg : ExporterState) (rectW rectH : ℚ) : PdfParams :=
  if cfg.paginate then basePdfParams cfg else autoPdfParams cfg rectW rectH

/-- A chromium binary is available to launch when it was already present,
or when the download step was allowed to run and succeeded. -/
def binaryAvailable (cfg : ExporterState) (o : Outcome) : Bool :=
  o.binaryPresent || (cfg.allow_chromium_download && o.downloadOk)

/-- chromium.launch succeeds when a binary is available and no other
launch fault occurs. -/
def launchSucceeds (cfg : ExporterState) (o : Outcome) : Bool :=
  binaryAvailable cfg o && o.launchOk

/-- Lines 29-91: the async main coroutine of run_playwright.  Mirrors the
source control flow: import playwright (RuntimeError when missing); if
allow_chromium_download, run the install subprocess (its failure
propagates); start the engine; launch chromium with the sandbox args,
and on launch failure stop the engine and raise the RuntimeError with
remediation text; open a page, emulate print media, wait 100ms, goto the
temporary file url waiting for networkidle, wait 100ms; build pdf_params,
evaluating the measurement script when paginate is false; print to pdf;
close the browser and stop the engine.  rectW and rectH are the body
bounding-box dimensions the page would report. -/
def mainCoroutine (cfg : ExporterState) (o : Outcome) (rectW rectH : ℚ)
    (tmpName : String) : Except RenderError PdfParams × List Event :=
  let args := sandboxArgs cfg
  if !o.engineInstalled then
    (Except.error (RenderError.engineMissing engineMissingMsg), [])
  else if cfg.allow_chromium_download && !o.downloadOk then
    (Except.error RenderError.downloadFailed, [Event.download])
  else
    let pre := (if cfg.allow_chromium_download then [Event.download] else [])
      ++ [Event.startEngine]
    if !launchSucceeds cfg o then
      (Except.error (RenderError.launchFailed browserUnavailableMsg),
        pre ++ [Event.launch args, Event.stopEngine])
    else
      let t2 := pre ++ [Event.launch args, Event.newPage,
        Event.emulateMedia "print", Event.waitMs 100,
        Event.goto (fileUrl tmpName) "networkidle"]
      if !o.gotoOk then
        (Except.error RenderError.navigationTimeout, t2)
      else
        let t3 := t2 ++ [Event.waitMs 100]
        if cfg.paginate then
          let params := basePdfParams cfg
          if !o.pdfOk then
            (Except.error RenderError.printFailed, t3 ++ [Event.printPdf params])
          else
            (Except.ok params,
              t3 ++ [Event.printPdf params, Event.closeBrowser, Event.stopEngine])
        else
          let t4 := t3 ++ [Event.evaluateMeasure]
          if !o.evalOk then
            (Except.error RenderError.evalFailed, t4)
          else
            let params := autoPdfParams cfg rectW rectH
            if !o.pdfOk then
              (Except.error RenderError.printFailed, t4 ++ [Event.printPdf params])
            else
              (Except.ok params,
                t4 ++ [Event.printPdf params, Event.closeBrowser, Event.stopEngine])

/-- Lines 93-108: run_playwright creates the named temporary file
(delete False), writes the html, runs the main coroutine on a dedicated
worker thread with a fresh event loop, and in a finally block unlinks the
temporary file, so the unlink filesystem operation follows whatever the
coroutine did, on success and on error alike. -/
def run_playwright (cfg : ExporterState) (o : Outcome) (rectW rectH : ℚ)
    (tmpName : String) : RunResult :=
  let body := mainCoroutine cfg o rectW rectH tmpName
  { result := body.1
    trace := body.2
    fsOps := [FsOp.createTemp tmpName] ++ [FsOp.unlink tmpName] }

/-- Temporary files created by an operation list and never unlinked. -/
def leftoverTempFiles (ops : List FsOp) : List String :=
  (ops.filterMap (fun op => match op with
    | FsOp.createTemp n => some n
    | FsOp.unlink _ => none)).filter (fun n => !(ops.contains (FsOp.unlink n)))

/-- Modelled from the upstream nbconvert WebPDFExporter traitlet defaults,
which the spec treats as a black-box collaborator: paginate defaults to
true, allow_chromium_download and disable_sandbox default to false. -/
def webPDFExporterDefaults : ExporterState :=
  { page_format := "A3"
    paginate := true
    disable_sandbox := false
    allow_chromium_download := false }

/-- Lines 22-24: the SizedWebPDFExporter constructor keeps the inherited
defaults and stores the page format. -/
def sizedWebPDFExporterInit (page_format : String) : ExporterState :=
  { webPDFExporterDefaults with page_format := page_format }

/-- Lines 111-114: convert_notebook builds the exporter, then sets
allow_chromium_download from its argument and disable_sandbox to true;
it never touches paginate. -/
def convert_notebook_exporter (page_format : String)
    (allow_chromium_download : Bool) : ExporterState :=
  { sizedWebPDFExporterInit page_format with
    allow_chromium_download := allow_chromium_download
    disable_sandbox := true }

/-- Lines 126-131: the choices accepted for the page-format CLI flag. -/
def pageFormatChoices : List String := ["A2", "A3", "A4", "Letter", "Legal"]

/-- Argparse handling of the page-format flag: absent means the default
A3; present means the value is accepted only when it is one of the
choices. -/
def resolvePageFormat : Option String → Except String String
  | none => Except.ok "A3"
  | some s =>
    if s ∈ pageFormatChoices then Except.ok s
    else Except.error "invalid choice"

/-- A notebook path, abstracted to its parent directory and stem. -/
structure NbPath where
  parent : String
  stem : String
deriving DecidableEq

/-- Errors the CLI driver can terminate with: the FileNotFoundError for a
missing notebook, a failed conversion, or the ValueError raised by line
156 when the written output path cannot be made relative to the current
working directory. -/
inductive CliError where
  | notebookNotFound (nb : NbPath)
  | conversionFailed (nb : NbPath)
  | relativeToValueError (dir : String)
deriving DecidableEq

/-- Observable steps of the CLI driver.  convertStarted marks entry into
convert_notebook, the point where browser resources (temporary file,
browser process) begin to be allocated for that notebook; wrote records
the output file written on success. -/
inductive CliEvent where
  | convertStarted (nb : NbPath)
  | wrote (dir : String) (name : String)
deriving DecidableEq

/-- Line 152: the output directory is the output-dir argument when given,
else the notebook parent directory. -/
def targetDir (outputDir : Option String) (nb : NbPath) : String :=
  outputDir.getD nb.parent

/-- Lines 149-158: the loop of main over the notebook list.  pathExists
abstracts the existence check on the resolved path; convertOk abstracts
whether the conversion of a notebook succeeds; underCwd abstracts whether
the written output path can be made relative to the current working
directory, which depends only on its directory.  A missing path raises
FileNotFoundError before convert_notebook is entered; a failed conversion
aborts the loop; on success the output file named stem.pdf is written
into the target directory, then line 156 prints the output path relative
to the current working directory, and when the path lies outside the
current working directory that relative_to call raises ValueError, which
aborts the loop after the write; otherwise the loop continues. -/
def mainLoop (pathExists : NbPath → Bool) (convertOk : NbPath → Bool)
    (underCwd : String → Bool) (outputDir : Option String) :
    List NbPath → Except CliError Unit × List CliEvent
  | [] => (Except.ok (), [])
  | nb :: rest =>
    if !pathExists nb then
      (Except.error (CliError.notebookNotFound nb), [])
    else if !convertOk nb then
      (Except.error (CliError.conversionFailed nb), [CliEvent.convertStarted nb])
    else if !underCwd (targetDir outputDir nb) then
      (Except.error (CliError.relativeToValueError (targetDir outputDir nb)),
        [CliEvent.convertStarted nb,
          CliEvent.wrote (targetDir outputDir nb) (nb.stem ++ ".pdf")])
    else
      let tail := mainLoop pathExists convertOk underCwd outputDir rest
      (tail.1,
        CliEvent.convertStarted nb
          :: CliEvent.wrote (targetDir outputDir nb) (nb.stem ++ ".pdf")
          :: tail.2)

/-- Process exit status: main returns 0 on success; an uncaught exception
terminates the interpreter with status 1. -/
def exitCode : Except CliError Unit → Nat
  | Except.ok _ => 0
  | Except.error _ => 1

/-- Recognizer for output-file write events. -/
def isWrote : CliEvent → Bool
  | CliEvent.wrote _ _ => true
  | _ => false

/-- Recognizer for browser launch events. -/
def isLaunch : Event → Bool
  | Event.launch _ => true
  | _ => false

/-- Fixture: exporter configuration in the auto-size mode (paginate off)
with download allowed. -/
def cfgAuto : ExporterState :=
  { page_format := "A3", paginate := false, disable_sandbox := true,
    allow_chromium_download := true }

/-- Fixture: exporter configuration with pagination and download refused. -/
def cfgNoDl : ExporterState :=
  { page_format := "A3", paginate := true, disable_sandbox := false,
    allow_chromium_download := false }

/-- Fixture: environment in which every step succeeds. -/
def oAll : Outcome :=
  { engineInstalled := true, downloadOk := true, binaryPresent := true,
    launchOk := true, gotoOk := true, evalOk := true, pdfOk := true }

/-- Fixture: environment with no chromium binary on the system. -/
def oNoBinary : Outcome :=
  { engineInstalled := true, downloadOk := true, binaryPresent := false,
    launchOk := true, gotoOk := true, evalOk := true, pdfOk := true }

/-- Fixture notebook path. -/
def nbA : NbPath := { parent := "d1", stem := "a" }

/-- Fixture notebook path. -/
def nbB : NbPath := { parent := "d2", stem := "b" }

/-- Fixture existence oracle under which only nbA exists. -/
def peOnlyA : NbPath → Bool := fun nb => nb == nbA

/-- Fixture existence oracle under which every path exists. -/
def peAll : NbPath → Bool := fun _ => true

/-- Fixture conversion oracle under which every conversion succeeds. -/
def cvAll : NbPath → Bool := fun _ => true

/-- Fixture cwd oracle under which every output path lies inside the
current working directory. -/
def ucwdAll : String → Bool := fun _ => true

/-- Fixture cwd oracle under which no output path lies inside the current
working directory (the script was started from an unrelated directory). -/
def ucwdNone : String → Bool := fun _ => false

/-- Helper: a successful run returns exactly the parameters selected by
the paginate flag. -/
theorem result_ok_params (cfg : ExporterState) (o : Outcome) (rectW rectH : ℚ)
    (tmp : String) (p : PdfParams)
    (h : (run_playwright cfg o rectW rectH tmp).result = Except.ok p) :
    p = pdfParamsFor cfg rectW rectH := by
  rcases cfg with ⟨pf, pag, ds, adl⟩
  rcases o with ⟨ei, dok, bp, lok, gok, evok, pok⟩
  cases ei <;> cases dok <;> cases bp <;> cases lok <;> cases gok <;>
    cases evok <;> cases pok <;> cases pag <;> cases adl <;>
      simp_all [run_playwright, mainCoroutine, launchSucceeds, binaryAvailable,
        pdfParamsFor, sandboxArgs]

/-- Helper: the download event occurs exactly when the flag allows it,
provided the engine import succeeded. -/
theorem download_mem_iff (cfg : ExporterState) (o : Outcome) (rectW rectH : ℚ)
    (tmp : String) (h : o.engineInstalled = true) :
    Event.download ∈ (run_playwright cfg o rectW rectH tmp).trace ↔
      cfg.allow_chromium_download = true := by
  rcases cfg with ⟨pf, pag, ds, adl⟩
  rcases o with ⟨ei, dok, bp, lok, gok, evok, pok⟩
  cases ei <;> cases dok <;> cases bp <;> cases lok <;> cases gok <;>
    cases evok <;> cases pok <;> cases pag <;> cases adl <;>
      simp_all [run_playwright, mainCoroutine, launchSucceeds, binaryAvailable,
        sandboxArgs]

/-- Helper: every launch event in the trace carries the sandbox args. -/
theorem launch_args_mem (cfg : ExporterState) (o : Outcome) (rectW rectH : ℚ)
    (tmp : String) (l : List String)
    (h : Event.launch l ∈ (run_playwright cfg o rectW rectH tmp).trace) :
    l = sandboxArgs cfg := by
  rcases cfg with ⟨pf, pag, ds, adl⟩
  rcases o with ⟨ei, dok, bp, lok, gok, evok, pok⟩
  cases ei <;> cases dok <;> cases bp <;> cases lok <;> cases gok <;>
    cases evok <;> cases pok <;> cases pag <;> cases adl <;>
      simp_all [run_playwright, mainCoroutine, launchSucceeds, binaryAvailable,
        sandboxArgs]

/-- Helper: with paginate set, the measurement script never runs and every
printed parameter set is the base one. -/
theorem paginate_no_measure (cfg : ExporterState) (o : Outcome) (rectW rectH : ℚ)
    (tmp : String) (h : cfg.paginate = true) :
    Event.evaluateMeasure ∉ (run_playwright cfg o rectW rectH tmp).trace ∧
    (∀ p, Event.printPdf p ∈ (run_playwright cfg o rectW rectH tmp).trace →
      p = basePdfParams cfg) := by
  rcases cfg with ⟨pf, pag, ds, adl⟩
  rcases o with ⟨ei, dok, bp, lok, gok, evok, pok⟩
  cases ei <;> cases dok <;> cases bp <;> cases lok <;> cases gok <;>
    cases evok <;> cases pok <;> cases pag <;> cases adl <;>
      simp_all [run_playwright, mainCoroutine, launchSucceeds, binaryAvailable,
        sandboxArgs]

/-- Helper: launch failure stops the engine and propagates the remediation
error, with exactly one launch attempt in the trace. -/
theorem launch_fail_run (cfg : ExporterState) (o : Outcome) (rectW rectH : ℚ)
    (tmp : String) (h1 : o.engineInstalled = true)
    (h2 : cfg.allow_chromium_download = true → o.downloadOk = true)
    (h3 : launchSucceeds cfg o = false) :
    (run_playwright cfg o rectW rectH tmp).result =
      Except.error (RenderError.launchFailed browserUnavailableMsg) ∧
    (run_playwright cfg o rectW rectH tmp).trace =
      (if cfg.allow_chromium_download then [Event.download] else []) ++
        [Event.startEngine, Event.launch (sandboxArgs cfg), Event.stopEngine] := by
  rcases cfg with ⟨pf, pag, ds, adl⟩
  rcases o with ⟨ei, dok, bp, lok, gok, evok, pok⟩
  cases ei <;> cases dok <;> cases bp <;> cases lok <;> cases adl <;>
    simp_all [run_playwright, mainCoroutine, launchSucceeds, binaryAvailable,
      sandboxArgs]

/-- Helper: the filesystem operations of every run are the creation of the
temporary file followed by its unlink. -/
theorem run_fsOps (cfg : ExporterState) (o : Outcome) (rectW rectH : ℚ)
    (tmp : String) :
    (run_playwright cfg o rectW rectH tmp).fsOps =
      [FsOp.createTemp tmp, FsOp.unlink tmp] := rfl

/-- Helper: when every notebook exists, every conversion succeeds and
every output path lies inside the current working directory, the loop
returns success. -/
theorem mainLoop_all_ok (pe cv : NbPath → Bool) (ucwd : String → Bool)
    (odir : Option String) (nbs : List NbPath)
    (h : ∀ nb ∈ nbs, pe nb = true ∧ cv nb = true ∧
      ucwd (targetDir odir nb) = true) :
    (mainLoop pe cv ucwd odir nbs).1 = Except.ok () := by
  induction nbs with
  | nil => rfl
  | cons x rest ih =>
    have hx := h x (List.mem_cons_self x rest)
    simp only [mainLoop, hx.1, hx.2.1, hx.2.2, Bool.not_true, Bool.false_eq_true,
      if_false, ite_false]
    exact ih (fun y hy => h y (List.mem_cons_of_mem x hy))

/-- Helper: a notebook whose path does not exist is never converted, and
the loop does not succeed. -/
theorem mainLoop_missing (pe cv : NbPath → Bool) (ucwd : String → Bool)
    (odir : Option String) (nbs : List NbPath) (nb : NbPath) (hmem : nb ∈ nbs)
    (hmiss : pe nb = false) :
    CliEvent.convertStarted nb ∉ (mainLoop pe cv ucwd odir nbs).2 ∧
    (mainLoop pe cv ucwd odir nbs).1 ≠ Except.ok () := by
  induction nbs with
  | nil => cases hmem
  | cons x rest ih =>
    rcases List.mem_cons.mp hmem with rfl | hmem'
    · simp [mainLoop, hmiss]
    · by_cases hx : pe x = true
      · have hne : nb ≠ x := by
          intro e
          rw [e, hx] at hmiss
          exact Bool.true_eq_false.mp hmiss
        by_cases hc : cv x = true
        · by_cases hu : ucwd (targetDir odir x) = true
          · have hrest := ih hmem'
            simp [mainLoop, hx, hc, hu, hne, hrest.1, hrest.2]
          · simp [mainLoop, hx, hc, hu, hne]
        · simp [mainLoop, hx, hc, hne]
      · simp [mainLoop, hx]

/-- Helper: the first notebook that fails the existence check determines
the FileNotFoundError the loop terminates with. -/
theorem mainLoop_first_missing (pe cv : NbPath → Bool) (ucwd : String → Bool)
    (odir : Option String) (l : List NbPath) (nb : NbPath) (r : List NbPath)
    (hok : ∀ x ∈ l, pe x = true ∧ cv x = true ∧ ucwd (targetDir odir x) = true)
    (hmiss : pe nb = false) :
    (mainLoop pe cv ucwd odir (l ++ nb :: r)).1 =
      Except.error (CliError.notebookNotFound nb) := by
  induction l with
  | nil => simp [mainLoop, hmiss]
  | cons x xs ih =>
    have hx := hok x (List.mem_cons_self x xs)
    simp only [List.cons_append, mainLoop, hx.1, hx.2.1, hx.2.2, Bool.not_true,
      Bool.false_eq_true, if_false, ite_false]
    exact ih (fun y hy => hok y (List.mem_cons_of_mem x hy))

/-- C1: in the auto-size mode (the branch taken when paginate is false,
the only mode in which the script computes its own page size), a
successful run passes width and height print parameters that equal the
minimum of the measured bounding-box dimension rounded up to the next
integer plus one and 200 * 72; the values are passed to the print call
unchanged, so the clamp is applied directly to them. -/
theorem c1_auto_size_clamp (cfg : ExporterState) (o : Outcome)
    (rectW rectH : ℚ) (tmp : String) (p : PdfParams)
    (hauto : cfg.paginate = false)
    (hres : (run_playwright cfg o rectW rectH tmp).result = Except.ok p) :
    p.width = some (min (⌈rectW⌉ + 1) (200 * 72)) ∧
    p.height = some (min (⌈rectH⌉ + 1) (200 * 72)) := by
  have hp := result_ok_params cfg o rectW rectH tmp p hres
  subst hp
  simp [pdfParamsFor, hauto, autoPdfParams, basePdfParams, measureScript]

/-- Witness for C1 at a concrete auto-size run with bounding box 5 by 7. -/
theorem c1_witness :
    cfgAuto.paginate = false ∧
    (run_playwright cfgAuto oAll 5 7 "t").result =
      Except.ok (autoPdfParams cfgAuto 5 7) ∧
    ((autoPdfParams cfgAuto 5 7).width = some (min (⌈(5 : ℚ)⌉ + 1) (200 * 72)) ∧
     (autoPdfParams cfgAuto 5 7).height = some (min (⌈(7 : ℚ)⌉ + 1) (200 * 72))) :=
  ⟨rfl, rfl, c1_auto_size_clamp cfgAuto oAll 5 7 "t" _ rfl rfl⟩

/-- C2 counterexample: the claim that the auto-size parameters carry no
named paper size is false: a successful auto-size run returns parameters
with the width override set and the named format still present. -/
theorem c2_counterexample :
    ¬ (∀ (cfg : ExporterState) (o : Outcome) (rectW rectH : ℚ) (tmp : String)
        (p : PdfParams),
        (run_playwright cfg o rectW rectH tmp).result = Except.ok p →
        p.width.isSome = true → p.format = none) := by
  intro h
  have hx := h cfgAuto oAll 5 7 "t" (autoPdfParams cfgAuto 5 7) rfl rfl
  simp [autoPdfParams, basePdfParams, cfgAuto] at hx

/-- C2 (amended): every returned parameter set enables background
printing and carries the named paper size from the page_format setting,
in both modes; the computed width and height are additionally present
exactly when the paginate flag is false, which is what selects the
auto-size mode. -/
theorem c2_amended (cfg : ExporterState) (o : Outcome) (rectW rectH : ℚ)
    (tmp : String) (p : PdfParams)
    (hres : (run_playwright cfg o rectW rectH tmp).result = Except.ok p) :
    p.print_background = true ∧ p.format = some cfg.page_format ∧
    (p.width.isSome = true ↔ cfg.paginate = false) ∧
    (p.height.isSome = true ↔ cfg.paginate = false) := by
  have hp := result_ok_params cfg o rectW rectH tmp p hres
  subst hp
  cases hpag : cfg.paginate <;>
    simp [pdfParamsFor, hpag, autoPdfParams, basePdfParams]

/-- Witness for the amended C2 at a concrete auto-size run. -/
theorem c2_witness :
    (run_playwright cfgAuto oAll 5 7 "t").result =
      Except.ok (autoPdfParams cfgAuto 5 7) ∧
    ((autoPdfParams cfgAuto 5 7).print_background = true ∧
     (autoPdfParams cfgAuto 5 7).format = some cfgAuto.page_format ∧
     ((autoPdfParams cfgAuto 5 7).width.isSome = true ↔ cfgAuto.paginate = false) ∧
     ((autoPdfParams cfgAuto 5 7).height.isSome = true ↔ cfgAuto.paginate = false)) :=
  ⟨rfl, c2_amended cfgAuto oAll 5 7 "t" _ rfl⟩

/-- C3: for every configuration and every environment outcome, success or
failure at any modelled step, the run leaves no temporary file behind:
the unlink in the finally block pairs with the creation. -/
theorem c3_temp_cleanup (cfg : ExporterState) (o : Outcome) (rectW rectH : ℚ)
    (tmp : String) :
    leftoverTempFiles (run_playwright cfg o rectW rectH tmp).fsOps = [] := by
  simp [leftoverTempFiles, run_fsOps, List.contains, List.filterMap, List.filter]

/-- C4 counterexample: the claim that the download step runs if and only
if the binary is absent and download is allowed is false: with the binary
already present and download allowed, the script still runs the blocking
install subprocess. -/
theorem c4_counterexample :
    ¬ (∀ (cfg : ExporterState) (o : Outcome) (rectW rectH : ℚ) (tmp : String),
        Event.download ∈ (run_playwright cfg o rectW rectH tmp).trace ↔
          (o.binaryPresent = false ∧ cfg.allow_chromium_download = true)) := by
  intro h
  have hx := (h cfgAuto oAll 5 7 "t").mp (by decide)
  simp [oAll] at hx

/-- C4 (amended): once the engine import succeeds, the blocking download
step runs if and only if allow_chromium_download is set, regardless of
whether a binary is already present; and when no binary is present and
download is disallowed, the call fails at launch with the RuntimeError
carrying the remediation guidance. -/
theorem c4_amended (cfg : ExporterState) (o : Outcome) (rectW rectH : ℚ)
    (tmp : String) (h1 : o.engineInstalled = true) :
    (Event.download ∈ (run_playwright cfg o rectW rectH tmp).trace ↔
      cfg.allow_chromium_download = true) ∧
    (o.binaryPresent = false → cfg.allow_chromium_download = false →
      (run_playwright cfg o rectW rectH tmp).result =
        Except.error (RenderError.launchFailed browserUnavailableMsg)) := by
  refine ⟨download_mem_iff cfg o rectW rectH tmp h1, ?_⟩
  intro hbp hdl
  have h3 : launchSucceeds cfg o = false := by
    simp [launchSucceeds, binaryAvailable, hbp, hdl]
  exact (launch_fail_run cfg o rectW rectH tmp h1 (by simp [hdl]) h3).1

/-- Witness for the amended C4 with no binary and download disallowed. -/
theorem c4_witness :
    oNoBinary.engineInstalled = true ∧
    ((Event.download ∈ (run_playwright cfgNoDl oNoBinary 5 7 "t").trace ↔
        cfgNoDl.allow_chromium_download = true) ∧
     (oNoBinary.binaryPresent = false → cfgNoDl.allow_chromium_download = false →
        (run_playwright cfgNoDl oNoBinary 5 7 "t").result =
          Except.error (RenderError.launchFailed browserUnavailableMsg))) :=
  ⟨rfl, c4_amended cfgNoDl oNoBinary 5 7 "t" rfl⟩

/-- C5: when the browser fails to launch, the engine is stopped before
the error propagates (the trace ends with the stop after the single
launch attempt), the propagated error carries the remediation message,
and the launch is attempted exactly once. -/
theorem c5_launch_failure (cfg : ExporterState) (o : Outcome) (rectW rectH : ℚ)
    (tmp : String) (h1 : o.engineInstalled = true)
    (h2 : cfg.allow_chromium_download = true → o.downloadOk = true)
    (h3 : launchSucceeds cfg o = false) :
    (run_playwright cfg o rectW rectH tmp).result =
      Except.error (RenderError.launchFailed browserUnavailableMsg) ∧
    (run_playwright cfg o rectW rectH tmp).trace =
      (if cfg.allow_chromium_download then [Event.download] else []) ++
        [Event.startEngine, Event.launch (sandboxArgs cfg), Event.stopEngine] ∧
    (run_playwright cfg o rectW rectH tmp).trace.countP isLaunch = 1 := by
  have h := launch_fail_run cfg o rectW rectH tmp h1 h2 h3
  refine ⟨h.1, h.2, ?_⟩
  rw [h.2]
  cases hdl : cfg.allow_chromium_download <;>
    simp [List.countP_append, List.countP_cons, isLaunch, List.countP,
      List.countP.go]

/-- Witness for C5 at a concrete launch failure (no binary, no download). -/
theorem c5_witness :
    oNoBinary.engineInstalled = true ∧
    (cfgNoDl.allow_chromium_download = true → oNoBinary.downloadOk = true) ∧
    launchSucceeds cfgNoDl oNoBinary = false ∧
    ((run_playwright cfgNoDl oNoBinary 5 7 "t").result =
      Except.error (RenderError.launchFailed browserUnavailableMsg) ∧
     (run_playwright cfgNoDl oNoBinary 5 7 "t").trace =
      (if cfgNoDl.allow_chromium_download then [Event.download] else []) ++
        [Event.startEngine, Event.launch (sandboxArgs cfgNoDl), Event.stopEngine] ∧
     (run_playwright cfgNoDl oNoBinary 5 7 "t").trace.countP isLaunch = 1) :=
  ⟨rfl, by decide, rfl,
   c5_launch_failure cfgNoDl oNoBinary 5 7 "t" rfl (by decide) rfl⟩

/-- C6 counterexample: the claim that a run in which every notebook
exists and every conversion succeeds exits with code 0 is false: when the
output path of a successfully converted notebook lies outside the current
working directory, the relative_to call in the success message of line
156 raises ValueError and the run exits non-zero. -/
theorem c6_counterexample :
    ¬ (∀ (pe cv : NbPath → Bool) (ucwd : String → Bool) (odir : Option String)
        (nbs : List NbPath),
        (∀ nb ∈ nbs, pe nb = true ∧ cv nb = true) →
        exitCode (mainLoop pe cv ucwd odir nbs).1 = 0) := by
  intro h
  have hx := h peAll cvAll ucwdNone none [nbA] (by decide)
  exact absurd hx (by decide)

/-- C6 (amended): a run over notebooks that all exist, all convert, and
whose output paths all lie inside the current working directory exits
with code 0; a notebook whose path does not exist is never converted (no
browser resources are allocated for it) and the run does not exit 0; and
when every notebook before a missing one exists, converts and prints its
success message, the run terminates with the FileNotFoundError naming
that missing notebook. -/
theorem c6_cli_amended (pe cv : NbPath → Bool) (ucwd : String → Bool)
    (odir : Option String) (nbs : List NbPath) :
    ((∀ nb ∈ nbs, pe nb = true ∧ cv nb = true ∧
        ucwd (targetDir odir nb) = true) →
      exitCode (mainLoop pe cv ucwd odir nbs).1 = 0) ∧
    (∀ nb ∈ nbs, pe nb = false →
      CliEvent.convertStarted nb ∉ (mainLoop pe cv ucwd odir nbs).2 ∧
      exitCode (mainLoop pe cv ucwd odir nbs).1 ≠ 0) ∧
    (∀ (l : List NbPath) (nb : NbPath) (r : List NbPath),
      nbs = l ++ nb :: r →
      (∀ x ∈ l, pe x = true ∧ cv x = true ∧ ucwd (targetDir odir x) = true) →
      pe nb = false →
      (mainLoop pe cv ucwd odir nbs).1 =
        Except.error (CliError.notebookNotFound nb)) := by
  refine ⟨?_, ?_, ?_⟩
  · intro h
    rw [mainLoop_all_ok pe cv ucwd odir nbs h]
    rfl
  · intro nb hmem hmiss
    have h := mainLoop_missing pe cv ucwd odir nbs nb hmem hmiss
    refine ⟨h.1, ?_⟩
    intro he
    cases hres : (mainLoop pe cv ucwd odir nbs).1 with
    | ok u => exact h.2 (by cases u; exact hres)
    | error e =>
      rw [hres] at he
      simp [exitCode] at he
  · intro l nb r hsplit hok hmiss
    rw [hsplit]
    exact mainLoop_first_missing pe cv ucwd odir l nb r hok hmiss

/-- Witness for the amended C6: with only nbA existing, the run over nbA
then nbB never converts nbB and does not exit 0. -/
theorem c6_witness :
    (nbB ∈ [nbA, nbB] ∧ peOnlyA nbB = false) ∧
    (CliEvent.convertStarted nbB ∉
        (mainLoop peOnlyA cvAll ucwdAll none [nbA, nbB]).2 ∧
     exitCode (mainLoop peOnlyA cvAll ucwdAll none [nbA, nbB]).1 ≠ 0) :=
  ⟨⟨by decide, by decide⟩,
   (c6_cli_amended peOnlyA cvAll ucwdAll none [nbA, nbB]).2.1 nbB
     (by decide) (by decide)⟩

/-- C7: the trace of a successful run is exactly the strictly sequential
list: optional download, engine start, launch, new page, print media
emulation, a 100ms wait, navigation to the temporary document waiting for
networkidle, a second 100ms wait, the optional measurement, the print,
then close and stop; the trace is produced by one coroutine that suspends
at each step, so no two operations of one call overlap. -/
theorem c7_sequential_order (cfg : ExporterState) (o : Outcome)
    (rectW rectH : ℚ) (tmp : String) (h1 : o.engineInstalled = true)
    (h2 : cfg.allow_chromium_download = true → o.downloadOk = true)
    (h3 : launchSucceeds cfg o = true) (h4 : o.gotoOk = true)
    (h5 : o.evalOk = true) (h6 : o.pdfOk = true) :
    (run_playwright cfg o rectW rectH tmp).trace =
      (if cfg.allow_chromium_download then [Event.download] else []) ++
        [Event.startEngine, Event.launch (sandboxArgs cfg), Event.newPage,
          Event.emulateMedia "print", Event.waitMs 100,
          Event.goto (fileUrl tmp) "networkidle", Event.waitMs 100] ++
        (if cfg.paginate then [] else [Event.evaluateMeasure]) ++
        [Event.printPdf (pdfParamsFor cfg rectW rectH), Event.closeBrowser,
          Event.stopEngine] := by
  rcases cfg with ⟨pf, pag, ds, adl⟩
  rcases o with ⟨ei, dok, bp, lok, gok, evok, pok⟩
  cases ei <;> cases dok <;> cases bp <;> cases lok <;> cases gok <;>
    cases evok <;> cases pok <;> cases pag <;> cases adl <;>
      simp_all [run_playwright, mainCoroutine, launchSucceeds, binaryAvailable,
        sandboxArgs, pdfParamsFor]

/-- Witness for C7 at a concrete fully successful auto-size run. -/
theorem c7_witness :
    oAll.engineInstalled = true ∧
    (cfgAuto.allow_chromium_download = true → oAll.downloadOk = true) ∧
    launchSucceeds cfgAuto oAll = true ∧ oAll.gotoOk = true ∧
    oAll.evalOk = true ∧ oAll.pdfOk = true ∧
    (run_playwright cfgAuto oAll 5 7 "t").trace =
      (if cfgAuto.allow_chromium_download then [Event.download] else []) ++
        [Event.startEngine, Event.launch (sandboxArgs cfgAuto), Event.newPage,
          Event.emulateMedia "print", Event.waitMs 100,
          Event.goto (fileUrl "t") "networkidle", Event.waitMs 100] ++
        (if cfgAuto.paginate then [] else [Event.evaluateMeasure]) ++
        [Event.printPdf (pdfParamsFor cfgAuto 5 7), Event.closeBrowser,
          Event.stopEngine] :=
  ⟨rfl, by decide, rfl, rfl, rfl, rfl,
   c7_sequential_order cfgAuto oAll 5 7 "t" rfl (by decide) rfl rfl rfl rfl⟩

/-- C8: on a successful run, the output-file writes are exactly one per
notebook, in order, named stem.pdf, placed in the output directory when
given and in the notebook parent directory otherwise. -/
theorem c8_output_files (pe cv : NbPath → Bool) (ucwd : String → Bool)
    (odir : Option String) (nbs : List NbPath)
    (h : (mainLoop pe cv ucwd odir nbs).1 = Except.ok ()) :
    (mainLoop pe cv ucwd odir nbs).2.filter isWrote =
      nbs.map (fun nb => CliEvent.wrote (targetDir odir nb) (nb.stem ++ ".pdf")) := by
  induction nbs with
  | nil => rfl
  | cons x rest ih =>
    by_cases hx : pe x = true
    · by_cases hc : cv x = true
      · by_cases hu : ucwd (targetDir odir x) = true
        · simp only [mainLoop, hx, hc, hu, Bool.not_true, Bool.false_eq_true,
            if_false, ite_false] at h ⊢
          simp [isWrote, List.filter, ih h]
        · simp [mainLoop, hx, hc, hu] at h
      · simp [mainLoop, hx, hc] at h
    · simp [mainLoop, hx] at h

/-- Witness for C8 at a concrete one-notebook run with no output dir. -/
theorem c8_witness :
    (mainLoop peAll cvAll ucwdAll none [nbA]).1 = Except.ok () ∧
    (mainLoop peAll cvAll ucwdAll none [nbA]).2.filter isWrote =
      [nbA].map (fun nb => CliEvent.wrote (targetDir none nb) (nb.stem ++ ".pdf")) :=
  ⟨rfl, c8_output_files peAll cvAll ucwdAll none [nbA] rfl⟩

/-- C9: through the public interface the exporter always paginates, so
the measurement branch never runs: the exporter built by convert_notebook
has paginate true, its runs never contain the measurement event, every
printed parameter set carries the named format with no width or height
override, and every page format the argument parsing accepts is one of
the named choices. -/
theorem c9_no_autosize (pf : String) (adl : Bool) (o : Outcome)
    (rectW rectH : ℚ) (tmp : String) :
    (convert_notebook_exporter pf adl).paginate = true ∧
    Event.evaluateMeasure ∉
      (run_playwright (convert_notebook_exporter pf adl) o rectW rectH tmp).trace ∧
    (∀ p, Event.printPdf p ∈
        (run_playwright (convert_notebook_exporter pf adl) o rectW rectH tmp).trace →
      p.format = some pf ∧ p.width = none ∧ p.height = none) ∧
    (∀ (s : Option String) (pfr : String),
      resolvePageFormat s = Except.ok pfr → pfr ∈ pageFormatChoices) := by
  have hpag : (convert_notebook_exporter pf adl).paginate = true := rfl
  have h := paginate_no_measure (convert_notebook_exporter pf adl) o rectW rectH
    tmp hpag
  refine ⟨hpag, h.1, ?_, ?_⟩
  · intro p hp
    rw [h.2 p hp]
    exact ⟨rfl, rfl, rfl⟩
  · intro s pfr hres
    cases s with
    | none =>
      cases hres
      decide
    | some str =>
      simp only [resolvePageFormat] at hres
      by_cases hmem : str ∈ pageFormatChoices
      · rw [if_pos hmem, Except.ok.injEq] at hres
        subst hres
        exact hmem
      · rw [if_neg hmem] at hres
        exact Except.noConfusion hres

/-- Witness for C9 at the A4 exporter and the Letter flag value. -/
theorem c9_witness :
    Event.evaluateMeasure ∉
      (run_playwright (convert_notebook_exporter "A4" false) oAll 5 7 "t").trace ∧
    (Event.printPdf (basePdfParams (convert_notebook_exporter "A4" false)) ∈
        (run_playwright (convert_notebook_exporter "A4" false) oAll 5 7 "t").trace ∧
      ((basePdfParams (convert_notebook_exporter "A4" false)).format = some "A4" ∧
       (basePdfParams (convert_notebook_exporter "A4" false)).width = none ∧
       (basePdfParams (convert_notebook_exporter "A4" false)).height = none)) ∧
    (resolvePageFormat (some "Letter") = Except.ok "Letter" ∧
      "Letter" ∈ pageFormatChoices) :=
  ⟨(c9_no_autosize "A4" false oAll 5 7 "t").2.1,
   ⟨by decide, (c9_no_autosize "A4" false oAll 5 7 "t").2.2.1 _ (by decide)⟩,
   ⟨rfl, (c9_no_autosize "A4" false oAll 5 7 "t").2.2.2 (some "Letter") "Letter" rfl⟩⟩

/-- C10: the exporter built by convert_notebook always has the sandbox
disabled, whatever the inputs, and consequently every browser launch of
such an exporter carries exactly the no-sandbox startup flag. -/
theorem c10_sandbox (pf : String) (adl : Bool) (o : Outcome)
    (rectW rectH : ℚ) (tmp : String) :
    (convert_notebook_exporter pf adl).disable_sandbox = true ∧
    ∀ l, Event.launch l ∈
        (run_playwright (convert_notebook_exporter pf adl) o rectW rectH tmp).trace →
      l = ["--no-sandbox"] := by
  refine ⟨rfl, ?_⟩
  intro l hl
  rw [launch_args_mem (convert_notebook_exporter pf adl) o rectW rectH tmp l hl]
  rfl

/-- Witness for C10 at a concrete launch of a convert_notebook exporter. -/
theorem c10_witness :
    (convert_notebook_exporter "A3" true).disable_sandbox = true ∧
    (Event.launch ["--no-sandbox"] ∈
        (run_playwright (convert_notebook_exporter "A3" true) oAll 5 7 "t").trace ∧
     ["--no-sandbox"] = ["--no-sandbox"]) :=
  ⟨(c10_sandbox "A3" true oAll 5 7 "t").1,
   by decide,
   (c10_sandbox "A3" true oAll 5 7 "t").2 ["--no-sandbox"] (by decide)⟩

end ExportWebpdf
